import Mathlib

/-!
Verification of the MAXE escalation classifier and coach-notification
pipeline.

The development shallowly embeds the Python sources:
  * `safety.py` — `check_escalation` returning an `EscalationResult`
    dataclass (namespace `Safety`);
  * `app.py` — the duplicated `check_escalation` returning a pair, the
    `send_coach_email` notifier, and the pending-response block
    (namespace `AppPy` and the top-level notifier model);
  * `Maxe/app.py` — the third `check_escalation` copy (namespace `MaxeApp`);
  * `Maxe/services/notify.py` — the notifier variant taking the recipient
    as a parameter (namespace `NotifySvc`).

Python's `re.search(p, t, re.IGNORECASE)` is embedded by a small regex
engine covering exactly the constructs the pattern lists use: literals,
alternation, optional groups, `.*`, and the `\x5cb` word-boundary
assertion.  Case-insensitivity is modelled by lower-casing both the
pattern literals and the subject text (ASCII case folding, matching
Lean's `Char.toLower`); word characters are ASCII alphanumerics and the
underscore, the ASCII fragment of Python's `\x5cw`.
-/

/-- Regexes, restricted to the constructs appearing in the source's
pattern lists.  `dotStar` is `.*` (any run of non-newline characters);
`wb` is the zero-width word-boundary assertion `\x5cb`. -/
inductive Rx where
  | eps
  | lit (c : Char)
  | cat (a b : Rx)
  | alt (a b : Rx)
  | dotStar
  | wb
deriving Repr, DecidableEq

/-- ASCII word characters, the fragment of Python's `\x5cw` relevant to the
pattern lists. -/
def isWordChar (c : Char) : Bool := c.isAlphanum || c = '_'

/-- Word-boundary test between the previous character (`none` at the start
of the subject) and the rest of the subject. -/
def boundaryOk (prev : Option Char) (s : List Char) : Bool :=
  (match prev with | none => false | some c => isWordChar c) !=
  (match s with | [] => false | c :: _ => isWordChar c)

/-- All ways `.*` can consume a prefix of the subject: it may stop anywhere
before the end or before a newline.  Each result records the character now
to the left of the cursor together with the remaining subject. -/
def dotStarMatches : Option Char → List Char → List (Option Char × List Char)
  | p, [] => [(p, [])]
  | p, c :: rest =>
      (p, c :: rest) :: (if c = '\n' then [] else dotStarMatches (some c) rest)

/-- Match a regex at the current cursor.  `p` is the character immediately
to the left of the cursor (`none` at the start of the subject); the result
lists every reachable cursor position (left character, remaining subject). -/
def mtch : Rx → Option Char → List Char → List (Option Char × List Char)
  | .eps, p, s => [(p, s)]
  | .lit _, _, [] => []
  | .lit c, _, x :: rest => if x = c then [(some x, rest)] else []
  | .cat a b, p, s => (mtch a p s).flatMap (fun q => mtch b q.1 q.2)
  | .alt a b, p, s => mtch a p s ++ mtch b p s
  | .dotStar, p, s => dotStarMatches p s
  | .wb, p, s => if boundaryOk p s then [(p, s)] else []

/-- Does the regex match starting exactly at the current cursor? -/
def matchHere (r : Rx) (p : Option Char) (s : List Char) : Bool :=
  !(mtch r p s).isEmpty

/-- Python's `re.search`: try to match at every start position. -/
def searchFrom (r : Rx) : Option Char → List Char → Bool
  | p, [] => matchHere r p []
  | p, c :: rest => matchHere r p (c :: rest) || searchFrom r (some c) rest

/-- `re.search(r, t, flags=re.IGNORECASE)`, modelled by lower-casing the
subject (pattern literals are lower-cased at construction). -/
def reSearch (r : Rx) (t : String) : Bool :=
  searchFrom r none (t.data.map Char.toLower)

/-- Literal word regex; literals are stored lower-cased (IGNORECASE). -/
def litStr : List Char → Rx
  | [] => .eps
  | c :: rest => .cat (.lit c.toLower) (litStr rest)

/-- Literal regex from a string. -/
def pstr (s : String) : Rx := litStr s.data

/-- Optional group `(r)?`. -/
def opt (r : Rx) : Rx := .alt r .eps

/-- Word-bounded phrase `\x5cb r \x5cb`. -/
def bWrap (r : Rx) : Rx := .cat .wb (.cat r .wb)

/-- ASCII apostrophe. -/
def apos : Char := Char.ofNat 39

/-- The contraction appearing in several patterns. -/
def cant : String := String.mk ['c', 'a', 'n', apos, 't']

namespace Pat

/-- Source pattern `\x5cbchest pain\x5cb|\x5cbchest pressure\x5cb`. -/
def chest : Rx := .alt (bWrap (pstr "chest pain")) (bWrap (pstr "chest pressure"))

/-- Source pattern `\x5cbfaint(ed|ing)?\x5cb|\x5cbpassed out\x5cb|\x5cbblack(ed)? out\x5cb`. -/
def faint : Rx :=
  .alt (bWrap (.cat (pstr "faint") (opt (.alt (pstr "ed") (pstr "ing")))))
    (.alt (bWrap (pstr "passed out"))
      (bWrap (.cat (pstr "black") (.cat (opt (pstr "ed")) (pstr " out")))))

/-- Branch `\x5cb(can.t|cannot) breathe\x5cb`. -/
def breatheCant : Rx := bWrap (.cat (.alt (pstr cant) (pstr "cannot")) (pstr " breathe"))

/-- Branch `\x5cbshort(ness)? of breath\x5cb`. -/
def breatheShort : Rx := bWrap (.cat (pstr "short") (.cat (opt (pstr "ness")) (pstr " of breath")))

/-- Branch `\x5cbsevere shortness of breath\x5cb`. -/
def breatheSevere : Rx := bWrap (pstr "severe shortness of breath")

/-- Breathing pattern in `safety.py` / `Maxe/app.py` branch order. -/
def breathe : Rx := .alt breatheCant (.alt breatheShort breatheSevere)

/-- Breathing pattern in `app.py` branch order (severe branch first). -/
def breatheApp : Rx := .alt breatheCant (.alt breatheSevere breatheShort)

/-- Source pattern `\x5cbnumb(ness)?\x5cb|\x5cbtingl(e|ing)\x5cb|\x5cbweak(ness)?\x5cb|\x5cbface droop\x5cb|\x5cbconfus(ed|ion)\x5cb`. -/
def neuro : Rx :=
  .alt (bWrap (.cat (pstr "numb") (opt (pstr "ness"))))
    (.alt (bWrap (.cat (pstr "tingl") (.alt (pstr "e") (pstr "ing"))))
      (.alt (bWrap (.cat (pstr "weak") (opt (pstr "ness"))))
        (.alt (bWrap (pstr "face droop"))
          (bWrap (.cat (pstr "confus") (.alt (pstr "ed") (pstr "ion")))))))

/-- Branch `\x5cbpalpitation(s)?\x5cb`. -/
def palpA : Rx := bWrap (.cat (pstr "palpitation") (opt (pstr "s")))

/-- Branch `\x5cbheart flutter\x5cb`. -/
def palpB : Rx := bWrap (pstr "heart flutter")

/-- Branch `\x5cbirregular heartbeat\x5cb`. -/
def palpC : Rx := bWrap (pstr "irregular heartbeat")

/-- Palpitation pattern in `safety.py` / `Maxe/app.py` branch order. -/
def palp : Rx := .alt palpA (.alt palpB palpC)

/-- Palpitation pattern in `app.py` branch order. -/
def palpApp : Rx := .alt palpA (.alt palpC palpB)

/-- Source pattern `\x5cbaorta\x5cb|\x5cbaneurysm\x5cb`. -/
def aorta : Rx := .alt (bWrap (pstr "aorta")) (bWrap (pstr "aneurysm"))

/-- Source pattern `\x5cbblood pressure\x5cb.*\x5cb(high|spike|spiking)\x5cb`. -/
def bloodPressure : Rx :=
  .cat (bWrap (pstr "blood pressure"))
    (.cat .dotStar (bWrap (.alt (pstr "high") (.alt (pstr "spike") (pstr "spiking")))))

/-- Source pattern `\x5cbsharp pain\x5cb`. -/
def sharpPain : Rx := bWrap (pstr "sharp pain")

/-- Branch `\x5cbpop(ped)?\x5cb.*\x5cbpain\x5cb`. -/
def popPain : Rx :=
  .cat (bWrap (.cat (pstr "pop") (opt (pstr "ped")))) (.cat .dotStar (bWrap (pstr "pain")))

/-- Branch `\x5cbheard a pop\x5cb`. -/
def heardPop : Rx := bWrap (pstr "heard a pop")

/-- Pop pattern in `safety.py` / `Maxe/app.py` branch order. -/
def pop : Rx := .alt popPain heardPop

/-- Pop pattern in `app.py` branch order. -/
def popApp : Rx := .alt heardPop popPain

/-- Branch `\x5cbswelling\x5cb`. -/
def swelling : Rx := bWrap (pstr "swelling")

/-- Source pattern `\x5cbswelling\x5cb|\x5cbbruise\x5cb|\x5cbbruising\x5cb` (`safety.py`, `Maxe/app.py`). -/
def bruise : Rx := .alt swelling (.alt (bWrap (pstr "bruise")) (bWrap (pstr "bruising")))

/-- Source pattern `\x5cbswelling\x5cb|\x5cbbruis(e|ing)\x5cb` (`app.py` factored spelling). -/
def bruiseApp : Rx := .alt swelling (bWrap (.cat (pstr "bruis") (.alt (pstr "e") (pstr "ing"))))

/-- Source pattern `\x5cb(can.t|cannot) bear weight\x5cb|\x5cbcan.t walk\x5cb`. -/
def bearWeight : Rx :=
  .alt (bWrap (.cat (.alt (pstr cant) (pstr "cannot")) (pstr " bear weight")))
    (bWrap (pstr (cant ++ " walk")))

/-- Source pattern `\x5cbshoot(ing)? pain\x5cb|\x5cbpain down (my|the) (arm|leg)\x5cb`. -/
def shootPain : Rx :=
  .alt (bWrap (.cat (pstr "shoot") (.cat (opt (pstr "ing")) (pstr " pain"))))
    (bWrap (.cat (pstr "pain down ")
      (.cat (.alt (pstr "my") (pstr "the")) (.cat (pstr " ") (.alt (pstr "arm") (pstr "leg"))))))

/-- Source pattern `\x5cbunstable\x5cb|\x5cbgiving out\x5cb|\x5cblocks up\x5cb`. -/
def unstable : Rx :=
  .alt (bWrap (pstr "unstable")) (.alt (bWrap (pstr "giving out")) (bWrap (pstr "locks up")))

/-- Source pattern `\x5cbmax out\x5cb|\x5cb1rm\x5cb|\x5cbPR\x5cb`. -/
def maxOut : Rx := .alt (bWrap (pstr "max out")) (.alt (bWrap (pstr "1rm")) (bWrap (pstr "PR")))

/-- Source pattern `\x5cbchange (my|the) program\x5cb|\x5cbmodify (my|the) program\x5cb`. -/
def changeProgram : Rx :=
  .alt (bWrap (.cat (pstr "change ") (.cat (.alt (pstr "my") (pstr "the")) (pstr " program"))))
    (bWrap (.cat (pstr "modify ") (.cat (.alt (pstr "my") (pstr "the")) (pstr " program"))))

/-- Source pattern `\x5cbskip (this|the) week\x5cb|\x5cbdeload\x5cb.*\x5cbnow\x5cb`. -/
def skipWeek : Rx :=
  .alt (bWrap (.cat (pstr "skip ") (.cat (.alt (pstr "this") (pstr "the")) (pstr " week"))))
    (.cat (bWrap (pstr "deload")) (.cat .dotStar (bWrap (pstr "now"))))

/-- Source pattern `\x5cbwhat did you mean\x5cb|\x5cbwhat do you want me to do\x5cb`. -/
def whatMean : Rx :=
  .alt (bWrap (pstr "what did you mean")) (bWrap (pstr "what do you want me to do"))

end Pat

/-- Python's `str.strip()` whitespace class, ASCII fragment. -/
def pyIsSpace (c : Char) : Bool :=
  c = ' ' || c = '\t' || c = '\n' || c = '\r' || c = '\x0b' || c = '\x0c'

/-- Python's `str.strip()`: drop leading and trailing whitespace. -/
def pyStrip (s : String) : String :=
  String.mk (((s.data.dropWhile pyIsSpace).reverse.dropWhile pyIsSpace).reverse)

/-- The helper `_contains_any(text, patterns)` / `contains_any` shared by
all three classifier copies. -/
def contains_any (t : String) (ps : List Rx) : Bool := ps.any (fun p => reSearch p t)

/-- The `EscalationResult` dataclass of `safety.py`. -/
structure EscalationResult where
  escalate : Bool
  reasons : List String
deriving Repr, DecidableEq

namespace Safety

/-- Pattern list `medical_red_flags` of `safety.py`. -/
def medical_red_flags : List Rx :=
  [Pat.chest, Pat.faint, Pat.breathe, Pat.neuro, Pat.palp, Pat.aorta, Pat.bloodPressure]

/-- Pattern list `injury_red_flags` of `safety.py`. -/
def injury_red_flags : List Rx :=
  [Pat.sharpPain, Pat.pop, Pat.bruise, Pat.bearWeight, Pat.shootPain, Pat.unstable]

/-- Pattern list `needs_coach` of `safety.py`. -/
def needs_coach : List Rx :=
  [Pat.maxOut, Pat.changeProgram, Pat.skipWeek, Pat.whatMean]

/-- `check_escalation` of `safety.py`. -/
def check_escalation (user_msg : String) : EscalationResult :=
  let t := pyStrip user_msg
  let reasons0 : List String := []
  let reasons1 := if contains_any t medical_red_flags then reasons0 ++ ["medical_red_flag"] else reasons0
  let reasons2 := if contains_any t injury_red_flags then reasons1 ++ ["injury_red_flag"] else reasons1
  let reasons3 := if contains_any t needs_coach then reasons2 ++ ["requires_coach_judgment"] else reasons2
  { escalate := decide (0 < reasons3.length), reasons := reasons3 }

end Safety

namespace AppPy

/-- Pattern list `medical_red_flags` of `app.py` (severe-breath and
heart-flutter branches in swapped order relative to `safety.py`). -/
def medical_red_flags : List Rx :=
  [Pat.chest, Pat.faint, Pat.breatheApp, Pat.neuro, Pat.palpApp, Pat.aorta, Pat.bloodPressure]

/-- Pattern list `injury_red_flags` of `app.py` (heard-a-pop branch first;
factored `bruis(e|ing)` spelling). -/
def injury_red_flags : List Rx :=
  [Pat.sharpPain, Pat.popApp, Pat.bruiseApp, Pat.bearWeight, Pat.shootPain, Pat.unstable]

/-- Pattern list `requires_coach` of `app.py`. -/
def requires_coach : List Rx :=
  [Pat.maxOut, Pat.changeProgram, Pat.skipWeek, Pat.whatMean]

/-- `check_escalation` of `app.py`, returning the `(escalate, reasons)` pair. -/
def check_escalation (user_msg : String) : Bool × List String :=
  let t := pyStrip user_msg
  let reasons0 : List String := []
  let reasons1 := if contains_any t medical_red_flags then reasons0 ++ ["medical_red_flag"] else reasons0
  let reasons2 := if contains_any t injury_red_flags then reasons1 ++ ["injury_red_flag"] else reasons1
  let reasons3 := if contains_any t requires_coach then reasons2 ++ ["requires_coach_judgment"] else reasons2
  (decide (0 < reasons3.length), reasons3)

end AppPy

namespace MaxeApp

/-- Pattern list `medical_red_flags` of `Maxe/app.py` (textually identical
to the `safety.py` list). -/
def medical_red_flags : List Rx :=
  [Pat.chest, Pat.faint, Pat.breathe, Pat.neuro, Pat.palp, Pat.aorta, Pat.bloodPressure]

/-- Pattern list `injury_red_flags` of `Maxe/app.py`. -/
def injury_red_flags : List Rx :=
  [Pat.sharpPain, Pat.pop, Pat.bruise, Pat.bearWeight, Pat.shootPain, Pat.unstable]

/-- Pattern list `requires_coach` of `Maxe/app.py`. -/
def requires_coach : List Rx :=
  [Pat.maxOut, Pat.changeProgram, Pat.skipWeek, Pat.whatMean]

/-- `check_escalation` of `Maxe/app.py`, returning the `(escalate, reasons)` pair. -/
def check_escalation (user_msg : String) : Bool × List String :=
  let t := pyStrip user_msg
  let reasons0 : List String := []
  let reasons1 := if contains_any t medical_red_flags then reasons0 ++ ["medical_red_flag"] else reasons0
  let reasons2 := if contains_any t injury_red_flags then reasons1 ++ ["injury_red_flag"] else reasons1
  let reasons3 := if contains_any t requires_coach then reasons2 ++ ["requires_coach_judgment"] else reasons2
  (decide (0 < reasons3.length), reasons3)

end MaxeApp

/-- Characters are equal iff their code points are. -/
lemma char_eq_iff_toNat (a b : Char) : a = b ↔ a.toNat = b.toNat := by
  constructor
  · intro h; rw [h]
  · intro h; apply Char.ext; rw [UInt32.ext_iff]; exact h

/-- Code points in the ASCII letter range survive `Char.ofNat`. -/
lemma toNat_ofNat_ascii (n : Nat) (h1 : 65 ≤ n) (h2 : n ≤ 122) : (Char.ofNat n).toNat = n := by
  have hv : n.isValidChar := Or.inl (by omega)
  simp only [Char.ofNat, dif_pos hv, Char.ofNatAux, Char.toNat, UInt32.toNat]
  simp

/-- Rebuilding a character from its code point is the identity. -/
lemma ofNat_toNat_char (c : Char) : Char.ofNat c.toNat = c := by
  have hv : c.toNat.isValidChar := c.valid
  rw [Char.ext_iff]
  simp only [Char.ofNat, dif_pos hv, Char.ofNatAux]
  rw [UInt32.ext_iff]
  simp [UInt32.toNat, Char.toNat]

/-- Lower-casing after upper-casing agrees with plain lower-casing (ASCII
case folding as implemented by `Char.toUpper` / `Char.toLower`). -/
lemma toLower_toUpper (c : Char) : c.toUpper.toLower = c.toLower := by
  have hup : Char.toUpper c = if c.toNat ≥ 97 ∧ c.toNat ≤ 122 then Char.ofNat (c.toNat - 32) else c := rfl
  by_cases h : c.toNat ≥ 97 ∧ c.toNat ≤ 122
  · rw [hup, if_pos h]
    have ht : (Char.ofNat (c.toNat - 32)).toNat = c.toNat - 32 :=
      toNat_ofNat_ascii _ (by omega) (by omega)
    have hlo : Char.toLower (Char.ofNat (c.toNat - 32)) =
        if (Char.ofNat (c.toNat - 32)).toNat ≥ 65 ∧ (Char.ofNat (c.toNat - 32)).toNat ≤ 90 then
          Char.ofNat ((Char.ofNat (c.toNat - 32)).toNat + 32) else Char.ofNat (c.toNat - 32) := rfl
    have hlo2 : Char.toLower c = if c.toNat ≥ 65 ∧ c.toNat ≤ 90 then Char.ofNat (c.toNat + 32) else c := rfl
    rw [hlo, ht, if_pos (by omega : c.toNat - 32 ≥ 65 ∧ c.toNat - 32 ≤ 90)]
    rw [hlo2, if_neg (by omega : ¬(c.toNat ≥ 65 ∧ c.toNat ≤ 90))]
    have : c.toNat - 32 + 32 = c.toNat := by omega
    rw [this, ofNat_toNat_char]
  · rw [hup, if_neg h]

/-- Characters beyond the ASCII control/space range are not Python whitespace. -/
lemma pyIsSpace_false_of_ge (c : Char) (h : 33 ≤ c.toNat) : pyIsSpace c = false := by
  unfold pyIsSpace
  have k : ∀ d : Char, d.toNat ≤ 32 → decide (c = d) = false := by
    intro d hd
    apply decide_eq_false
    intro e
    rw [char_eq_iff_toNat] at e
    omega
  rw [k ' ' (by decide), k '\t' (by decide), k '\n' (by decide), k '\r' (by decide),
    k '\x0b' (by decide), k '\x0c' (by decide)]
  rfl

/-- Upper-casing never produces or removes Python whitespace. -/
lemma pyIsSpace_toUpper (c : Char) : pyIsSpace c.toUpper = pyIsSpace c := by
  have hup : Char.toUpper c = if c.toNat ≥ 97 ∧ c.toNat ≤ 122 then Char.ofNat (c.toNat - 32) else c := rfl
  by_cases h : c.toNat ≥ 97 ∧ c.toNat ≤ 122
  · rw [hup, if_pos h]
    have ht : (Char.ofNat (c.toNat - 32)).toNat = c.toNat - 32 :=
      toNat_ofNat_ascii _ (by omega) (by omega)
    rw [pyIsSpace_false_of_ge _ (by rw [ht]; omega), pyIsSpace_false_of_ge _ (by omega)]
  · rw [hup, if_neg h]

/-- Upper-cased copy of a string (a canonical "change of letter case"). -/
def upperStr (s : String) : String := String.mk (s.data.map Char.toUpper)

/-- Stripping commutes with upper-casing. -/
lemma pyStrip_upperStr (s : String) : pyStrip (upperStr s) = upperStr (pyStrip s) := by
  unfold pyStrip upperStr
  refine congrArg String.mk ?_
  have hcomp : (pyIsSpace ∘ Char.toUpper) = pyIsSpace := funext pyIsSpace_toUpper
  show (((s.data.map Char.toUpper).dropWhile pyIsSpace).reverse.dropWhile pyIsSpace).reverse =
    ((((s.data.dropWhile pyIsSpace).reverse.dropWhile pyIsSpace).reverse).map Char.toUpper)
  rw [List.dropWhile_map, hcomp, ← List.map_reverse, List.dropWhile_map, hcomp, ← List.map_reverse]

/-- A pattern sees the same lower-cased subject whether or not the input was
upper-cased first. -/
lemma contains_any_upperStr (s : String) (ps : List Rx) :
    contains_any (pyStrip (upperStr s)) ps = contains_any (pyStrip s) ps := by
  unfold contains_any reSearch
  rw [pyStrip_upperStr]
  have hdata : (upperStr (pyStrip s)).data.map Char.toLower = (pyStrip s).data.map Char.toLower := by
    show ((pyStrip s).data.map Char.toUpper).map Char.toLower = _
    rw [List.map_map]
    exact congrArg (fun f => List.map f (pyStrip s).data) (funext toLower_toUpper)
  rw [hdata]

/-- C1: the reasons list of `check_escalation` contains exactly the codes of
the categories whose pattern list matches the trimmed text, each at most
once, in the fixed order medical, injury, coach-judgment, with no value
outside the three-element code set; each category membership depends only on
that category's own pattern list, so no category suppresses another. -/
theorem C1_reason_codes (s : String) :
    (("medical_red_flag" ∈ (Safety.check_escalation s).reasons) ↔
        contains_any (pyStrip s) Safety.medical_red_flags = true) ∧
    (("injury_red_flag" ∈ (Safety.check_escalation s).reasons) ↔
        contains_any (pyStrip s) Safety.injury_red_flags = true) ∧
    (("requires_coach_judgment" ∈ (Safety.check_escalation s).reasons) ↔
        contains_any (pyStrip s) Safety.needs_coach = true) ∧
    (Safety.check_escalation s).reasons.Sublist
      ["medical_red_flag", "injury_red_flag", "requires_coach_judgment"] := by
  unfold Safety.check_escalation
  by_cases h1 : contains_any (pyStrip s) Safety.medical_red_flags = true <;>
    by_cases h2 : contains_any (pyStrip s) Safety.injury_red_flags = true <;>
      by_cases h3 : contains_any (pyStrip s) Safety.needs_coach = true <;>
        simp [h1, h2, h3]

/-- C2: the two fields of the verdict never disagree: `escalate` is true
exactly when the reasons list is non-empty. -/
theorem C2_escalate_iff_reasons (s : String) :
    (Safety.check_escalation s).escalate = true ↔ (Safety.check_escalation s).reasons ≠ [] := by
  unfold Safety.check_escalation
  by_cases h1 : contains_any (pyStrip s) Safety.medical_red_flags = true <;>
    by_cases h2 : contains_any (pyStrip s) Safety.injury_red_flags = true <;>
      by_cases h3 : contains_any (pyStrip s) Safety.needs_coach = true <;>
        simp [h1, h2, h3]

/-- C5: `check_escalation` is a total function (by construction in this
embedding), and on empty or whitespace-only input it returns a
non-escalating verdict with an empty reasons list. -/
theorem C5_whitespace_input (s : String) (h : s.data.all pyIsSpace = true) :
    Safety.check_escalation s = { escalate := false, reasons := [] } := by
  have hstrip : pyStrip s = "" := by
    unfold pyStrip
    have hd : s.data.dropWhile pyIsSpace = [] :=
      List.dropWhile_eq_nil_iff.mpr (fun x hx => List.all_eq_true.mp h x hx)
    rw [hd]
    rfl
  simp only [Safety.check_escalation, hstrip]
  decide

/-- Witness for C5 at the concrete whitespace-only input consisting of a
space, a tab and a space. -/
theorem C5_whitespace_input_witness :
    (" \t ".data.all pyIsSpace = true) ∧
      Safety.check_escalation " \t " = { escalate := false, reasons := [] } :=
  ⟨by decide, C5_whitespace_input " \t " (by decide)⟩

/-- C6: classification is case-insensitive: upper-casing the input yields an
identical verdict, and in particular "CHEST PAIN" and "chest pain" classify
identically. -/
theorem C6_case_insensitive :
    (∀ s : String, Safety.check_escalation (upperStr s) = Safety.check_escalation s) ∧
    Safety.check_escalation "CHEST PAIN" = Safety.check_escalation "chest pain" := by
  constructor
  · intro s
    unfold Safety.check_escalation
    simp only [contains_any_upperStr]
  · decide

/-- Two regexes are match-equivalent when they reach exactly the same cursor
positions from every starting position. -/
def MatchEquiv (r1 r2 : Rx) : Prop :=
  ∀ p s x, x ∈ mtch r1 p s ↔ x ∈ mtch r2 p s

namespace MatchEquiv

lemma refl (r : Rx) : MatchEquiv r r := fun _ _ _ => Iff.rfl

lemma symm {r1 r2 : Rx} (h : MatchEquiv r1 r2) : MatchEquiv r2 r1 :=
  fun p s x => (h p s x).symm

lemma trans {r1 r2 r3 : Rx} (h1 : MatchEquiv r1 r2) (h2 : MatchEquiv r2 r3) :
    MatchEquiv r1 r3 :=
  fun p s x => (h1 p s x).trans (h2 p s x)

lemma alt_comm (a b : Rx) : MatchEquiv (.alt a b) (.alt b a) := by
  intro p s x
  simp [mtch, List.mem_append, or_comm]

lemma alt_congr {a a' b b' : Rx} (ha : MatchEquiv a a') (hb : MatchEquiv b b') :
    MatchEquiv (.alt a b) (.alt a' b') := by
  intro p s x
  simp only [mtch, List.mem_append, ha p s x, hb p s x]

lemma cat_congr {a a' b b' : Rx} (ha : MatchEquiv a a') (hb : MatchEquiv b b') :
    MatchEquiv (.cat a b) (.cat a' b') := by
  intro p s x
  simp only [mtch, List.mem_flatMap]
  constructor
  · rintro ⟨q, hq, hx⟩
    exact ⟨q, (ha p s q).mp hq, (hb q.1 q.2 x).mp hx⟩
  · rintro ⟨q, hq, hx⟩
    exact ⟨q, (ha p s q).mpr hq, (hb q.1 q.2 x).mpr hx⟩

lemma cat_alt_right (a b c : Rx) :
    MatchEquiv (.cat a (.alt b c)) (.alt (.cat a b) (.cat a c)) := by
  intro p s x
  simp only [mtch, List.mem_flatMap, List.mem_append]
  constructor
  · rintro ⟨q, hq, hx | hx⟩
    · exact Or.inl ⟨q, hq, hx⟩
    · exact Or.inr ⟨q, hq, hx⟩
  · rintro (⟨q, hq, hx⟩ | ⟨q, hq, hx⟩)
    · exact ⟨q, hq, Or.inl hx⟩
    · exact ⟨q, hq, Or.inr hx⟩

lemma cat_alt_left (a b c : Rx) :
    MatchEquiv (.cat (.alt a b) c) (.alt (.cat a c) (.cat b c)) := by
  intro p s x
  simp only [mtch, List.mem_flatMap, List.mem_append]
  constructor
  · rintro ⟨q, hq | hq, hx⟩
    · exact Or.inl ⟨q, hq, hx⟩
    · exact Or.inr ⟨q, hq, hx⟩
  · rintro (⟨q, hq, hx⟩ | ⟨q, hq, hx⟩)
    · exact ⟨q, Or.inl hq, hx⟩
    · exact ⟨q, Or.inr hq, hx⟩

lemma cat_assoc (a b c : Rx) :
    MatchEquiv (.cat (.cat a b) c) (.cat a (.cat b c)) := by
  intro p s x
  simp only [mtch, List.mem_flatMap]
  constructor
  · rintro ⟨q, ⟨q', hq', hq⟩, hx⟩
    exact ⟨q', hq', q, hq, hx⟩
  · rintro ⟨q', hq', q, hq, hx⟩
    exact ⟨q, ⟨q', hq', hq⟩, hx⟩

lemma cat_eps_left (r : Rx) : MatchEquiv (.cat .eps r) r := by
  intro p s x
  simp [mtch]

end MatchEquiv

/-- Splitting a literal word splits its regex, up to match-equivalence. -/
lemma litStr_append (l1 l2 : List Char) :
    MatchEquiv (litStr (l1 ++ l2)) (.cat (litStr l1) (litStr l2)) := by
  induction l1 with
  | nil =>
      exact (MatchEquiv.cat_eps_left (litStr l2)).symm
  | cons c rest ih =>
      show MatchEquiv (.cat (.lit c.toLower) (litStr (rest ++ l2))) _
      exact ((MatchEquiv.cat_congr (MatchEquiv.refl _) ih).trans
        (MatchEquiv.cat_assoc (.lit c.toLower) (litStr rest) (litStr l2)).symm)

/-- Match-equivalent regexes match at the same cursor positions. -/
lemma MatchEquiv.matchHere_eq {r1 r2 : Rx} (h : MatchEquiv r1 r2) (p : Option Char)
    (s : List Char) : matchHere r1 p s = matchHere r2 p s := by
  unfold matchHere
  by_cases he : mtch r1 p s = []
  · have he2 : mtch r2 p s = [] := by
      rw [List.eq_nil_iff_forall_not_mem]
      intro x hx
      rw [List.eq_nil_iff_forall_not_mem] at he
      exact he x ((h p s x).mpr hx)
    rw [he, he2]
  · have he2 : mtch r2 p s ≠ [] := by
      intro e
      apply he
      rw [List.eq_nil_iff_forall_not_mem]
      intro x hx
      rw [List.eq_nil_iff_forall_not_mem] at e
      exact e x ((h p s x).mp hx)
    rw [List.isEmpty_eq_false_iff_exists_mem.mpr, List.isEmpty_eq_false_iff_exists_mem.mpr]
    · exact List.exists_mem_of_ne_nil _ he2
    · exact List.exists_mem_of_ne_nil _ he

/-- Match-equivalent regexes are found at the same search positions. -/
lemma MatchEquiv.searchFrom_eq {r1 r2 : Rx} (h : MatchEquiv r1 r2) (p : Option Char)
    (s : List Char) : searchFrom r1 p s = searchFrom r2 p s := by
  induction s generalizing p with
  | nil => exact h.matchHere_eq p []
  | cons c rest ih =>
      show (matchHere r1 p (c :: rest) || searchFrom r1 (some c) rest) = _
      rw [h.matchHere_eq p (c :: rest), ih (some c)]
      rfl

/-- Match-equivalent regexes give identical `re.search` verdicts. -/
lemma MatchEquiv.reSearch_eq {r1 r2 : Rx} (h : MatchEquiv r1 r2) (t : String) :
    reSearch r1 t = reSearch r2 t :=
  h.searchFrom_eq none (t.data.map Char.toLower)

/-- Word-boundary wrapping respects match-equivalence. -/
lemma bWrap_congr {r r' : Rx} (h : MatchEquiv r r') : MatchEquiv (bWrap r) (bWrap r') :=
  MatchEquiv.cat_congr (MatchEquiv.refl _) (MatchEquiv.cat_congr h (MatchEquiv.refl _))

/-- Word-boundary wrapping distributes over alternation. -/
lemma bWrap_alt (x y : Rx) : MatchEquiv (bWrap (.alt x y)) (.alt (bWrap x) (bWrap y)) :=
  (MatchEquiv.cat_congr (MatchEquiv.refl _) (MatchEquiv.cat_alt_left x y .wb)).trans
    (MatchEquiv.cat_alt_right .wb (.cat x .wb) (.cat y .wb))

/-- The word "bruise" is "bruis" then "e". -/
lemma pstr_bruise : MatchEquiv (pstr "bruise") (.cat (pstr "bruis") (pstr "e")) := by
  have hd : "bruise".data = "bruis".data ++ "e".data := by decide
  show MatchEquiv (litStr "bruise".data) (.cat (litStr "bruis".data) (litStr "e".data))
  rw [hd]
  exact litStr_append _ _

/-- The word "bruising" is "bruis" then "ing". -/
lemma pstr_bruising : MatchEquiv (pstr "bruising") (.cat (pstr "bruis") (pstr "ing")) := by
  have hd : "bruising".data = "bruis".data ++ "ing".data := by decide
  show MatchEquiv (litStr "bruising".data) (.cat (litStr "bruis".data) (litStr "ing".data))
  rw [hd]
  exact litStr_append _ _

/-- The `safety.py` and `app.py` breathing patterns match the same inputs. -/
lemma breathe_equiv : MatchEquiv Pat.breathe Pat.breatheApp :=
  MatchEquiv.alt_congr (MatchEquiv.refl _) (MatchEquiv.alt_comm _ _)

/-- The `safety.py` and `app.py` palpitation patterns match the same inputs. -/
lemma palp_equiv : MatchEquiv Pat.palp Pat.palpApp :=
  MatchEquiv.alt_congr (MatchEquiv.refl _) (MatchEquiv.alt_comm _ _)

/-- The `safety.py` and `app.py` pop patterns match the same inputs. -/
lemma pop_equiv : MatchEquiv Pat.pop Pat.popApp := MatchEquiv.alt_comm _ _

/-- The factored `bruis(e|ing)` spelling matches the same inputs as the
expanded `bruise|bruising` spelling. -/
lemma bruise_equiv : MatchEquiv Pat.bruise Pat.bruiseApp := by
  refine MatchEquiv.alt_congr (MatchEquiv.refl _) ?_
  have h1 : MatchEquiv (bWrap (.cat (pstr "bruis") (.alt (pstr "e") (pstr "ing"))))
      (.alt (bWrap (pstr "bruise")) (bWrap (pstr "bruising"))) :=
    (bWrap_congr (MatchEquiv.cat_alt_right _ _ _)).trans
      ((bWrap_alt _ _).trans
        (MatchEquiv.alt_congr (bWrap_congr pstr_bruise.symm) (bWrap_congr pstr_bruising.symm)))
  exact h1.symm

/-- The medical category tests identically in `safety.py` and `app.py`. -/
lemma medical_contains_eq (t : String) :
    contains_any t Safety.medical_red_flags = contains_any t AppPy.medical_red_flags := by
  simp only [contains_any, Safety.medical_red_flags, AppPy.medical_red_flags,
    List.any_cons, List.any_nil]
  rw [breathe_equiv.reSearch_eq t, palp_equiv.reSearch_eq t]

/-- The injury category tests identically in `safety.py` and `app.py`. -/
lemma injury_contains_eq (t : String) :
    contains_any t Safety.injury_red_flags = contains_any t AppPy.injury_red_flags := by
  simp only [contains_any, Safety.injury_red_flags, AppPy.injury_red_flags,
    List.any_cons, List.any_nil]
  rw [pop_equiv.reSearch_eq t, bruise_equiv.reSearch_eq t]

/-- C9: the three duplicated classifier implementations are extensionally
equal: for every input, `safety.py`, `app.py` and `Maxe/app.py` produce the
same escalate flag and the same reasons list. -/
theorem C9_three_copies_agree (s : String) :
    (((Safety.check_escalation s).escalate, (Safety.check_escalation s).reasons)
        = AppPy.check_escalation s) ∧
    AppPy.check_escalation s = MaxeApp.check_escalation s := by
  have hm := medical_contains_eq (pyStrip s)
  have hi := injury_contains_eq (pyStrip s)
  have hm2 : contains_any (pyStrip s) MaxeApp.medical_red_flags
      = contains_any (pyStrip s) AppPy.medical_red_flags := hm
  have hi2 : contains_any (pyStrip s) MaxeApp.injury_red_flags
      = contains_any (pyStrip s) AppPy.injury_red_flags := hi
  have hc : contains_any (pyStrip s) Safety.needs_coach
      = contains_any (pyStrip s) AppPy.requires_coach := rfl
  have hc2 : contains_any (pyStrip s) MaxeApp.requires_coach
      = contains_any (pyStrip s) AppPy.requires_coach := rfl
  constructor
  · simp only [Safety.check_escalation, AppPy.check_escalation, hm, hi, hc]
  · simp only [AppPy.check_escalation, MaxeApp.check_escalation, hm2, hi2, hc2]

/-- Digit runs with Python's single-underscore-between-digits rule, after
the first digit has been seen. -/
def pyIntGo : List Char → Bool
  | [] => true
  | ['_'] => false
  | '_' :: c :: r => c.isDigit && pyIntGo r
  | c :: r => c.isDigit && pyIntGo r

/-- Non-empty digit run (underscores allowed between digits). -/
def pyIntBody : List Char → Bool
  | [] => false
  | c :: r => c.isDigit && pyIntGo r

/-- Decimal value of a digit run, ignoring separator underscores. -/
def digitsVal (l : List Char) : Nat :=
  (l.filter (fun c => !(c = '_'))).foldl (fun acc c => acc * 10 + (c.toNat - 48)) 0

/-- Python's `int(s)` on a string: strips whitespace, allows one sign, then
requires a non-empty digit run; `none` models the `ValueError` raised on
anything else. -/
def pyInt (s : String) : Option Int :=
  match (pyStrip s).data with
  | '+' :: r => if pyIntBody r then some (Int.ofNat (digitsVal r)) else none
  | '-' :: r => if pyIntBody r then some (-(Int.ofNat (digitsVal r))) else none
  | r => if pyIntBody r then some (Int.ofNat (digitsVal r)) else none

/-- Resolved configuration store: for each key `send_coach_email` reads, the
value `get_secret` / `os.getenv` finds before defaults apply (`none` when
neither Streamlit secrets nor the environment define the key). -/
structure SecretStore where
  coach_email : Option String
  smtp_host : Option String
  smtp_port : Option String
  smtp_user : Option String
  smtp_pass : Option String
  smtp_from : Option String
deriving Repr, DecidableEq

/-- `get_secret(key, default)`: the stored value when present, else the
default. -/
def get_secret (v : Option String) (default : Option String) : Option String :=
  match v with
  | some x => some x
  | none => default

/-- Python truthiness test `not v` for an optional string: `None` and the
empty string are falsy. -/
def pyFalsy : Option String → Bool
  | none => true
  | some s => s = ""

/-- One step of the `smtplib` interaction inside the `with` block. -/
inductive SmtpAction where
  | connect (host : String) (port : Int)
  | starttls
  | login (user pw : String)
  | sendMessage
deriving Repr, DecidableEq

/-- The message and transport interaction produced by a successful
`send_coach_email`: the `EmailMessage` headers and content, plus the ordered
`smtplib` calls. -/
structure SentEmail where
  sender : String
  recipient : String
  subject : String
  content : String
  actions : List SmtpAction
deriving Repr, DecidableEq

/-- Errors `send_coach_email` can raise before reaching the transport:
`valueError` is the `int()` failure on `SMTP_PORT` (carrying the offending
text), `configError` the `RuntimeError` listing the missing keys
(`app.py` / `Maxe/app.py` variant), `envError` the fixed-message
`RuntimeError` of `Maxe/services/notify.py`. -/
inductive EmailError where
  | valueError (txt : String)
  | configError (missing : List String)
  | envError
deriving Repr, DecidableEq

/-- Message text of the missing-keys `RuntimeError`. -/
def configErrorMessage (missing : List String) : String :=
  "Missing email config keys: " ++ String.intercalate ", " missing

/-- The dict comprehension
`[k for k, v in {...}.items() if not v]` of `send_coach_email` in `app.py` /
`Maxe/app.py`: the keys with falsy values, in the fixed dict enumeration
order COACH_EMAIL, SMTP_HOST, SMTP_USER, SMTP_PASS, SMTP_FROM. -/
def missingKeys (cfg : SecretStore) : List String :=
  (([("COACH_EMAIL", get_secret cfg.coach_email none),
     ("SMTP_HOST", get_secret cfg.smtp_host none),
     ("SMTP_USER", get_secret cfg.smtp_user none),
     ("SMTP_PASS", get_secret cfg.smtp_pass none),
     ("SMTP_FROM", get_secret cfg.smtp_from (get_secret cfg.smtp_user none))].filter
      (fun kv => pyFalsy kv.2)).map (fun kv => kv.1))

/-- `send_coach_email` of `app.py` / `Maxe/app.py` (the two copies are
textually identical).  Reads the configuration, converts `SMTP_PORT` with
`int()` (a `valueError` on failure, before the missing-key check), raises
the aggregated `configError` when any required key is falsy, and otherwise
builds the message and performs connect, STARTTLS, login, send in order. -/
def send_coach_email (cfg : SecretStore) (subject body : String)
    (reasons : List String) : Except EmailError SentEmail :=
  let to_email := get_secret cfg.coach_email none
  let smtp_host := get_secret cfg.smtp_host none
  match pyInt ((get_secret cfg.smtp_port (some "587")).getD "") with
  | none => .error (.valueError ((get_secret cfg.smtp_port (some "587")).getD ""))
  | some smtp_port =>
    let smtp_user := get_secret cfg.smtp_user none
    let smtp_pass := get_secret cfg.smtp_pass none
    let smtp_from := get_secret cfg.smtp_from smtp_user
    if missingKeys cfg ≠ [] then .error (.configError (missingKeys cfg))
    else
      .ok { sender := smtp_from.getD ""
            recipient := to_email.getD ""
            subject := subject
            content := body ++ "\n\nEscalation reasons: " ++ String.intercalate ", " reasons
            actions := [.connect (smtp_host.getD "") smtp_port, .starttls,
              .login (smtp_user.getD "") (smtp_pass.getD ""), .sendMessage] }

namespace NotifySvc

/-- `send_coach_email` of `Maxe/services/notify.py`: the recipient is a
parameter, the check is `not all([...])` with a fixed error message, and the
transport sequence is the same connect, STARTTLS, login, send. -/
def send_coach_email (env : SecretStore) (to_email subject body : String)
    (reasons : List String) : Except EmailError SentEmail :=
  let smtp_host := get_secret env.smtp_host none
  match pyInt ((get_secret env.smtp_port (some "587")).getD "") with
  | none => .error (.valueError ((get_secret env.smtp_port (some "587")).getD ""))
  | some smtp_port =>
    let smtp_user := get_secret env.smtp_user none
    let smtp_pass := get_secret env.smtp_pass none
    let smtp_from := get_secret env.smtp_from smtp_user
    if [smtp_host, smtp_user, smtp_pass, smtp_from].any pyFalsy then .error .envError
    else
      .ok { sender := smtp_from.getD ""
            recipient := to_email
            subject := subject
            content := body ++ "\n\nEscalation reasons: " ++ String.intercalate ", " reasons
            actions := [.connect (smtp_host.getD "") smtp_port, .starttls,
              .login (smtp_user.getD "") (smtp_pass.getD ""), .sendMessage] }

end NotifySvc

/-- Escalation email body composed at the `send_coach_email` call sites in
`app.py` and `Maxe/app.py`. -/
def escalationBody (user_msg : String) : String :=
  "User message:\n\n" ++ user_msg ++ "\n\nContext:\n- App: MAXE\n- State: ESCALATION\n"

deriving instance DecidableEq for Except

/-- When the port text parses and some required key is falsy,
`send_coach_email` raises exactly the aggregated missing-keys error. -/
lemma send_configError_of_missing (cfg : SecretStore) (subject body : String)
    (reasons : List String)
    (hport : (pyInt ((get_secret cfg.smtp_port (some "587")).getD "")).isSome = true)
    (hmiss : missingKeys cfg ≠ []) :
    send_coach_email cfg subject body reasons = .error (.configError (missingKeys cfg)) := by
  unfold send_coach_email
  cases hp : pyInt ((get_secret cfg.smtp_port (some "587")).getD "") with
  | none => rw [hp] at hport; simp at hport
  | some v =>
      simp only [hp]
      rw [if_pos hmiss]

/-- Configuration with exactly SMTP_PASS and COACH_EMAIL missing and every
other setting present. -/
def scenarioCfg : SecretStore :=
  { coach_email := none, smtp_host := some "smtp.example.com", smtp_port := some "587",
    smtp_user := some "coach-bot", smtp_pass := none, smtp_from := some "bot@example.com" }

/-- C4 (amended): provided SMTP_PORT (defaulting to "587") parses as an
integer, a configuration missing one or more required keys makes
`send_coach_email` fail, before any connection attempt, with the single
error listing every missing key in the fixed enumeration order; with exactly
SMTP_PASS and COACH_EMAIL missing the error lists exactly COACH_EMAIL then
SMTP_PASS. -/
theorem C4_missing_keys_amended :
    (∀ (cfg : SecretStore) (subject body : String) (reasons : List String),
      (pyInt ((get_secret cfg.smtp_port (some "587")).getD "")).isSome = true →
      missingKeys cfg ≠ [] →
      send_coach_email cfg subject body reasons = .error (.configError (missingKeys cfg))) ∧
    (∀ (subject body : String) (reasons : List String),
      send_coach_email scenarioCfg subject body reasons
        = .error (.configError ["COACH_EMAIL", "SMTP_PASS"])) := by
  constructor
  · exact send_configError_of_missing
  · intro subject body reasons
    rw [send_configError_of_missing scenarioCfg subject body reasons (by decide) (by decide)]
    rfl

/-- Witness for C4 at the two-keys-missing scenario configuration. -/
theorem C4_missing_keys_amended_witness :
    ((pyInt ((get_secret scenarioCfg.smtp_port (some "587")).getD "")).isSome = true) ∧
    (missingKeys scenarioCfg ≠ []) ∧
    send_coach_email scenarioCfg "MAXE Escalation Alert" "body" ["medical_red_flag"]
      = .error (.configError (missingKeys scenarioCfg)) :=
  ⟨by decide, by decide,
    C4_missing_keys_amended.1 scenarioCfg "MAXE Escalation Alert" "body"
      ["medical_red_flag"] (by decide) (by decide)⟩

/-- Configuration with COACH_EMAIL (a required setting) absent but SMTP_PORT
set to a non-integer string. -/
def badPortCfg : SecretStore :=
  { coach_email := none, smtp_host := some "smtp.example.com", smtp_port := some "abc",
    smtp_user := some "coach-bot", smtp_pass := some "hunter2",
    smtp_from := some "bot@example.com" }

/-- C4 counterexample: with the required COACH_EMAIL absent but SMTP_PORT
set to "abc", the call fails with the `int()` ValueError carrying "abc", not
with an error listing the missing keys, refuting the unconditional claim. -/
theorem C4_counterexample_nonint_port :
    pyFalsy badPortCfg.coach_email = true ∧
    send_coach_email badPortCfg "MAXE Escalation Alert" "body" ["medical_red_flag"]
      = .error (.valueError "abc") ∧
    send_coach_email badPortCfg "MAXE Escalation Alert" "body" ["medical_red_flag"]
      ≠ .error (.configError (missingKeys badPortCfg)) := by
  refine ⟨rfl, by decide, by decide⟩

/-- C10: with SMTP_PORT set to a non-integer string, both notifier variants
(`app.py` / `Maxe/app.py` and `Maxe/services/notify.py`) raise the `int()`
ValueError before the missing-configuration check and before any connection
attempt, regardless of the remaining settings. -/
theorem C10_nonint_port_value_error (cfg : SecretStore) (s : String)
    (hset : cfg.smtp_port = some s) (hbad : pyInt s = none)
    (to_email subject body : String) (reasons : List String) :
    send_coach_email cfg subject body reasons = .error (.valueError s) ∧
    NotifySvc.send_coach_email cfg to_email subject body reasons
      = .error (.valueError s) := by
  have hg : get_secret cfg.smtp_port (some "587") = some s := by
    unfold get_secret
    rw [hset]
  constructor
  · unfold send_coach_email
    rw [hg]
    simp only [Option.getD_some, hbad]
  · unfold NotifySvc.send_coach_email
    rw [hg]
    simp only [Option.getD_some, hbad]

/-- Fully populated configuration except that SMTP_PORT holds the
non-integer text "5x7". -/
def badPortCfg2 : SecretStore :=
  { coach_email := some "coach@example.com", smtp_host := some "smtp.example.com",
    smtp_port := some "5x7", smtp_user := some "coach-bot",
    smtp_pass := some "hunter2", smtp_from := some "bot@example.com" }

/-- Witness for C10 with every required setting present and port "5x7". -/
theorem C10_nonint_port_value_error_witness :
    (badPortCfg2.smtp_port = some "5x7") ∧ (pyInt "5x7" = none) ∧
    (send_coach_email badPortCfg2 "MAXE Escalation Alert" "body" []
        = .error (.valueError "5x7") ∧
      NotifySvc.send_coach_email badPortCfg2 "coach@example.com" "MAXE Escalation Alert"
        "body" [] = .error (.valueError "5x7")) :=
  ⟨rfl, by decide,
    C10_nonint_port_value_error badPortCfg2 "5x7" rfl (by decide)
      "coach@example.com" "MAXE Escalation Alert" "body" []⟩

/-- C7: on every successful send, the composed message content is the call
site body — which embeds the user message verbatim between the fixed
header and context block — followed by the trailing line enumerating the
reason codes in classifier order, joined by comma-space. -/
theorem C7_body_verbatim_and_reasons (cfg : SecretStore) (user_msg subject : String)
    (reasons : List String) (email : SentEmail)
    (h : send_coach_email cfg subject (escalationBody user_msg) reasons = .ok email) :
    email.content = escalationBody user_msg ++ "\n\nEscalation reasons: "
        ++ String.intercalate ", " reasons ∧
    escalationBody user_msg = "User message:\n\n" ++ user_msg
        ++ "\n\nContext:\n- App: MAXE\n- State: ESCALATION\n" := by
  refine ⟨?_, rfl⟩
  simp only [send_coach_email] at h
  split at h
  · exact absurd h (by simp)
  · split at h
    · exact absurd h (by simp)
    · simp only [Except.ok.injEq] at h
      rw [← h]

/-- Fully populated configuration for successful sends. -/
def fullCfg : SecretStore :=
  { coach_email := some "coach@example.com", smtp_host := some "smtp.example.com",
    smtp_port := some "2525", smtp_user := some "coach-bot",
    smtp_pass := some "hunter2", smtp_from := some "bot@example.com" }

/-- The email produced for the escalating message "aorta" under `fullCfg`. -/
def sentA : SentEmail :=
  { sender := "bot@example.com", recipient := "coach@example.com",
    subject := "MAXE Escalation Alert",
    content := escalationBody "aorta" ++ "\n\nEscalation reasons: "
      ++ String.intercalate ", " ["medical_red_flag"],
    actions := [.connect "smtp.example.com" 2525, .starttls,
      .login "coach-bot" "hunter2", .sendMessage] }

/-- Witness for C7 at the escalating message "aorta" with its classifier
reasons list. -/
theorem C7_body_verbatim_and_reasons_witness :
    (send_coach_email fullCfg "MAXE Escalation Alert" (escalationBody "aorta")
        ["medical_red_flag"] = .ok sentA) ∧
    ((Safety.check_escalation "aorta").reasons = ["medical_red_flag"]) ∧
    (sentA.content = escalationBody "aorta" ++ "\n\nEscalation reasons: "
        ++ String.intercalate ", " ["medical_red_flag"] ∧
      escalationBody "aorta" = "User message:\n\n" ++ "aorta"
        ++ "\n\nContext:\n- App: MAXE\n- State: ESCALATION\n") :=
  ⟨by decide, by decide,
    C7_body_verbatim_and_reasons fullCfg "aorta" "MAXE Escalation Alert"
      ["medical_red_flag"] sentA (by decide)⟩

/-- On an action trace, STARTTLS happens strictly before some login, and no
login happens before that STARTTLS. -/
def starttlsBeforeLogin (acts : List SmtpAction) : Prop :=
  ∃ i j : Nat, i < j ∧ acts[i]? = some .starttls ∧
    (∃ u pw, acts[j]? = some (.login u pw)) ∧
    (∀ (k : Nat) (u pw : String), acts[k]? = some (.login u pw) → i < k)

/-- The concrete `with smtplib.SMTP(...)` trace satisfies the ordering. -/
lemma starttlsBeforeLogin_trace (host : String) (port : Int) (u pw : String) :
    starttlsBeforeLogin [.connect host port, .starttls, .login u pw, .sendMessage] := by
  refine ⟨1, 2, by omega, rfl, ⟨u, pw, rfl⟩, ?_⟩
  intro k x y hk
  match k with
  | 0 => simp at hk
  | 1 => simp at hk
  | 2 => omega
  | 3 => simp at hk
  | (n + 4) => simp at hk

/-- C8: every successful send, in either notifier variant, performs STARTTLS
strictly before submitting the login credentials, and no login ever precedes
the STARTTLS step. -/
theorem C8_starttls_before_login :
    (∀ (cfg : SecretStore) (subject body : String) (reasons : List String)
        (email : SentEmail),
      send_coach_email cfg subject body reasons = .ok email →
      starttlsBeforeLogin email.actions) ∧
    (∀ (env : SecretStore) (to_email subject body : String) (reasons : List String)
        (email : SentEmail),
      NotifySvc.send_coach_email env to_email subject body reasons = .ok email →
      starttlsBeforeLogin email.actions) := by
  constructor
  · intro cfg subject body reasons email h
    simp only [send_coach_email] at h
    split at h
    · exact absurd h (by simp)
    · split at h
      · exact absurd h (by simp)
      · simp only [Except.ok.injEq] at h
        rw [← h]
        exact starttlsBeforeLogin_trace _ _ _ _
  · intro env to_email subject body reasons email h
    simp only [NotifySvc.send_coach_email] at h
    split at h
    · exact absurd h (by simp)
    · split at h
      · exact absurd h (by simp)
      · simp only [Except.ok.injEq] at h
        rw [← h]
        exact starttlsBeforeLogin_trace _ _ _ _

/-- The email produced for subject "s" and body "b" under `fullCfg`. -/
def sentB : SentEmail :=
  { sender := "bot@example.com", recipient := "coach@example.com",
    subject := "s",
    content := "b" ++ "\n\nEscalation reasons: " ++ String.intercalate ", " [],
    actions := [.connect "smtp.example.com" 2525, .starttls,
      .login "coach-bot" "hunter2", .sendMessage] }

/-- Witness for C8 at a concrete successful send. -/
theorem C8_starttls_before_login_witness :
    (send_coach_email fullCfg "s" "b" [] = .ok sentB) ∧
    starttlsBeforeLogin sentB.actions :=
  ⟨by decide, C8_starttls_before_login.1 fullCfg "s" "b" [] sentB (by decide)⟩

/-- Typographic right single quote used in the `app.py` reply text. -/
def rsq : Char := Char.ofNat 8217

namespace AppPy

/-- The fixed placeholder reply `maxe_reply_for` of `app.py` (the argument
is ignored by the source). -/
def maxe_reply_for (user_msg : String) : String :=
  "Acknowledged.\n\nIf you need a substitution, tell me:\n- what exercise you"
    ++ String.mk [rsq]
    ++ "re replacing\n- available equipment\n- what feels limited (pain vs tightness vs fatigue)\n\nI will preserve the intent and keep risk low."

/-- The fixed safety reply `maxe_escalation_reply` of `app.py`. -/
def maxe_escalation_reply : String :=
  "Coach notified.\n\nStop the session if symptoms worsen.\nIf you have chest pain, fainting, or severe shortness of breath, seek urgent medical care."

/-- Observable outcome of one pass through the pending-response block of
`app.py`: the verdict, whether the ESCALATION state and banner were set,
the optional notifier warning, the reply typed, the updated chat history,
and the mascot state at the end of the block. -/
structure TurnOutcome where
  verdict : Bool × List String
  escalationShown : Bool
  warning : Option String
  reply : String
  messages : List (String × String)
  finalState : String
deriving Repr, DecidableEq

/-- The pending-response block of `app.py` (the `if st.session_state.pending:`
branch), as a function of the prior chat history, the queued user message
and the outcome of the `send_coach_email` attempt (`Except.error e` when the
call raised an exception rendered as `e`).  The email attempt happens inside
`try`/`except`, so its outcome influences only the warning. -/
def processPending (msgs : List (String × String)) (msg : String)
    (emailResult : Except String Unit) : TurnOutcome :=
  let v := check_escalation msg
  if v.1 then
    { verdict := v
      escalationShown := true
      warning := match emailResult with
        | .ok _ => none
        | .error e => some ("Coach email not sent (check Streamlit secrets): " ++ e)
      reply := maxe_escalation_reply
      messages := msgs ++ [("assistant", maxe_escalation_reply)]
      finalState := "IDLE" }
  else
    { verdict := v
      escalationShown := false
      warning := none
      reply := maxe_reply_for msg
      messages := msgs ++ [("assistant", maxe_reply_for msg)]
      finalState := "IDLE" }

end AppPy

/-- C3: for every escalating message, when the email send raises, the
computed verdict is unchanged, the ESCALATION state and banner are still
set, the safety reply is still typed and appended to the conversation, and
the whole outcome agrees with the successful-send outcome except for the
diagnostic warning. -/
theorem C3_notifier_failure_isolated (msgs : List (String × String)) (msg e : String)
    (h : (AppPy.check_escalation msg).1 = true) :
    (AppPy.processPending msgs msg (.error e)).verdict = AppPy.check_escalation msg ∧
    (AppPy.processPending msgs msg (.error e)).escalationShown = true ∧
    (AppPy.processPending msgs msg (.error e)).reply = AppPy.maxe_escalation_reply ∧
    (AppPy.processPending msgs msg (.error e)).messages
      = msgs ++ [("assistant", AppPy.maxe_escalation_reply)] ∧
    AppPy.processPending msgs msg (.ok ())
      = { AppPy.processPending msgs msg (.error e) with warning := none } := by
  unfold AppPy.processPending
  simp [h]

/-- Witness for C3 at the escalating message "sharp pain". -/
theorem C3_notifier_failure_isolated_witness :
    ((AppPy.check_escalation "sharp pain").1 = true) ∧
    ((AppPy.processPending [] "sharp pain" (.error "boom")).verdict
        = AppPy.check_escalation "sharp pain" ∧
      (AppPy.processPending [] "sharp pain" (.error "boom")).escalationShown = true ∧
      (AppPy.processPending [] "sharp pain" (.error "boom")).reply
        = AppPy.maxe_escalation_reply ∧
      (AppPy.processPending [] "sharp pain" (.error "boom")).messages
        = [] ++ [("assistant", AppPy.maxe_escalation_reply)] ∧
      AppPy.processPending [] "sharp pain" (.ok ())
        = { AppPy.processPending [] "sharp pain" (.error "boom") with warning := none }) :=
  ⟨by decide, C3_notifier_failure_isolated [] "sharp pain" "boom" (by decide)⟩
